import Mathlib

/-!
# Verification of the IoT smart-irrigation assistant backend

Shallow embedding of the Python backend
(`src/backend/python_ai_sis_assistant`) in Lean 4, together with proofs
of the behavioural claims about it.  Each Python construct is translated
as follows:

* pure methods become Lean functions;
* stateful code (in-memory repositories, the rate limiter's request map)
  becomes explicit state passing over association lists keyed by strings,
  mirroring Python `dict` semantics;
* fallible code (`raise` / `except`) returns `Except`;
* `float` timestamps and scores become `ℚ`; opaque ids and wall-clock
  instants that the code only stores become `Nat` parameters supplied by
  the caller (the code obtains them from `uuid4()` / `datetime.utcnow()`);
* calls into external SDKs (the LLM, the web-search HTTP API) are
  abstracted as oracle values passed in explicitly.
-/

namespace SIS

/-! ## Generic helpers: Python `in` (substring test) and dict operations -/
/-- Boolean test that `n` is a prefix of `h` (over lists of characters). -/
def listPre : List Char → List Char → Bool
  | [], _ => true
  | _ :: _, [] => false
  | a :: as, b :: bs => a = b && listPre as bs

/-- Boolean test that `n` occurs as a contiguous substring of `h`;
this is Python's `n in h` on strings. -/
def listSub : List Char → List Char → Bool
  | n, [] => n.isEmpty
  | n, c :: cs => listPre n (c :: cs) || listSub n cs

/-- Python's `needle in hay` substring operator. -/
def substrB (needle hay : String) : Bool :=
  listSub needle.data hay.data

/-- Python dict lookup (`d.get(k)` / `k in d`), dicts modelled as
association lists. -/
def lookupKey {α : Type} : List (String × α) → String → Option α
  | [], _ => none
  | (k', v) :: rest, k => if k' = k then some v else lookupKey rest k

/-- Python dict store (`d[k] = v`): overwrite if present, else insert. -/
def setKey {α : Type} : List (String × α) → String → α → List (String × α)
  | [], k, v => [(k, v)]
  | (k', v') :: rest, k, v =>
    if k' = k then (k, v) :: rest else (k', v') :: setKey rest k v

/-- Python dict delete (`del d[k]`). -/
def eraseKey {α : Type} : List (String × α) → String → List (String × α)
  | [], _ => []
  | (k', v') :: rest, k =>
    if k' = k then rest else (k', v') :: eraseKey rest k

/-- Python list slice `xs[-l:]` for a non-negative `l`:
the whole list when `l = 0`, otherwise the last `min l (length xs)`
elements. -/
def pySliceLast {α : Type} (l : Nat) (xs : List α) : List α :=
  if l = 0 then xs else xs.drop (xs.length - l)

/-- Append an element at the end of a list and evict from the front down
to `cap` elements (the `append`-then-`[-cap:]` idiom shared by
`Device.add_sensor_data`, `ConversationContext.add_device_reference` and
`ConversationContext.add_to_history`). -/
def capAppend {α : Type} (cap : Nat) (l : List α) (x : α) : List α :=
  let l' := l ++ [x]
  if cap < l'.length then l'.drop (l'.length - cap) else l'

/-! ## Domain value objects (`src/domain/value_objects`) -/
/-- `MessageRole` enum. -/
inductive MessageRole
  | user
  | assistant
  | system
  deriving DecidableEq, Repr

/-- `ConversationState` enum. -/
inductive ConversationState
  | active
  | pending_agent_switch
  | completed
  | error
  deriving DecidableEq, Repr

/-- `ConversationId` frozen dataclass: an opaque string identifier
(generated from `uuid4()` when not supplied; freshness is supplied by the
caller in this embedding). -/
structure ConversationId where
  value : String
  deriving DecidableEq, Repr

/-- `Message` frozen dataclass.  `id`/`timestamp` are opaque values the
code only stores (`uuid4()` / `datetime.utcnow()`), embedded as `Nat`
parameters; the free-form metadata dict becomes an association list. -/
structure Message where
  id : Nat
  role : MessageRole
  content : String
  timestamp : Nat
  metadata : List (String × String) := []
  agent_type : Option String := none
  deriving DecidableEq, Repr

/-- `Message.create_user_message`. -/
def Message.create_user_message (id : Nat) (content : String)
    (now : Nat) : Message :=
  { id := id, role := .user, content := content, timestamp := now }

/-- `Message.create_assistant_message`. -/
def Message.create_assistant_message (id : Nat) (content : String)
    (agent_type : String) (now : Nat) : Message :=
  { id := id, role := .assistant, content := content, timestamp := now,
    agent_type := some agent_type }

/-- `ConversationContext` dataclass (the wired, value-object variant). -/
structure ConversationContext where
  conversation_id : ConversationId
  state : ConversationState
  current_agent_type : String
  messages : List Message := []
  metadata : List (String × String) := []
  created_at : Nat
  last_updated : Nat
  deriving DecidableEq, Repr

/-- `ConversationContext.add_message`: append and touch `last_updated`. -/
def ConversationContext.add_message (ctx : ConversationContext)
    (m : Message) (now : Nat) : ConversationContext :=
  { ctx with messages := ctx.messages ++ [m], last_updated := now }

/-- `ConversationContext.get_recent_messages`: `self.messages[-limit:]`. -/
def ConversationContext.get_recent_messages (ctx : ConversationContext)
    (limit : Nat) : List Message :=
  pySliceLast limit ctx.messages

/-- `ConversationContext.switch_agent`. -/
def ConversationContext.switch_agent (ctx : ConversationContext)
    (new_agent_type : String) (now : Nat) : ConversationContext :=
  { ctx with current_agent_type := new_agent_type, last_updated := now }

/-- `AgentType` enum (`src/domain/value_objects/agent_types.py`). -/
inductive AgentType
  | coordinator
  | local_assistant
  | web_search
  deriving DecidableEq, Repr

/-- `.value` of the `AgentType` enum members. -/
def AgentType.val : AgentType → String
  | .coordinator => "coordinator"
  | .local_assistant => "local_assistant"
  | .web_search => "web_search"

/-- Python `AgentType(s)` enum construction: `some` on the three valid
values, `none` models the `ValueError` raised otherwise. -/
def AgentType.fromValue (s : String) : Option AgentType :=
  if s = "coordinator" then some .coordinator
  else if s = "local_assistant" then some .local_assistant
  else if s = "web_search" then some .web_search
  else none

/-! ## Agent entity (`src/domain/entities/agent.py`) -/
/-- `AgentResponse` dataclass. -/
structure AgentResponse where
  content : String
  should_switch_agent : Bool := false
  target_agent_type : Option String := none
  metadata : Option (List (String × String)) := none
  deriving DecidableEq, Repr

/-- An `Agent`: its declared type string (`Agent.agent_type`, read from
the profile) and its `process_message` behaviour.  The concrete agents'
behaviour depends on LLM/network responses, so it is abstracted as an
arbitrary function of the message and the context. -/
structure Agent where
  agent_type : String
  process_message : Message → ConversationContext → AgentResponse

/-! ## In-memory conversation repository
(`src/infrastructure/repositories/memory_conversation_repository.py`) -/
/-- The repository's `_conversations` dict, keyed by
`conversation_id.value`. -/
def ConversationRepo : Type := List (String × ConversationContext)

/-- `MemoryConversationRepository.get_conversation`. -/
def get_conversation (repo : ConversationRepo) (cid : ConversationId) :
    Option ConversationContext :=
  lookupKey repo cid.value

/-- `MemoryConversationRepository.save_conversation`. -/
def save_conversation (repo : ConversationRepo)
    (ctx : ConversationContext) : ConversationRepo :=
  setKey repo ctx.conversation_id.value ctx

/-- `MemoryConversationRepository.update_conversation` (identical to
save: last-write-wins full replace). -/
def update_conversation (repo : ConversationRepo)
    (ctx : ConversationContext) : ConversationRepo :=
  setKey repo ctx.conversation_id.value ctx

/-! ## Conversation manager use case
(`src/usecases/conversation_manager.py`) -/
/-- `ProcessMessageRequest` dataclass. -/
structure ProcessMessageRequest where
  content : String
  conversation_id : Option ConversationId := none
  user_id : Option String := none
  deriving DecidableEq, Repr

/-- `ProcessMessageResponse` dataclass. -/
structure ProcessMessageResponse where
  content : String
  conversation_id : ConversationId
  agent_type : String
  metadata : Option (List (String × String)) := none
  deriving DecidableEq, Repr

/-- The `ValueError`s the use case can raise. -/
inductive ValueErr
  | conversation_not_found (cid : String)
  | no_suitable_agent
  | invalid_agent_type (s : String)
  deriving DecidableEq, Repr

/-- `str(e)` for each of the `ValueError`s above. -/
def ValueErr.message : ValueErr → String
  | .conversation_not_found cid => "Conversation " ++ cid ++ " not found"
  | .no_suitable_agent => "No suitable agent found"
  | .invalid_agent_type s => "'" ++ s ++ "' is not a valid AgentType"

/-- Non-deterministic inputs of one chat turn: the fresh conversation id
`uuid4()` would mint, the two fresh message ids, and the wall-clock
reading (the code calls `datetime.utcnow()` several times within a turn;
those readings are collapsed into one `now`, which no claim observes). -/
structure TurnEnv where
  fresh_conversation_id : String
  user_message_id : Nat
  assistant_message_id : Nat
  now : Nat
  deriving DecidableEq, Repr

namespace ConversationManager

/-- The context built by `ConversationManager._create_new_conversation`:
a fresh context in `active` state with current agent = coordinator. -/
def freshContext (env : TurnEnv) : ConversationContext :=
  { conversation_id := ⟨env.fresh_conversation_id⟩,
    state := .active,
    current_agent_type := AgentType.coordinator.val,
    created_at := env.now, last_updated := env.now }

/-- `ConversationManager._create_new_conversation`: build the fresh
context and save it immediately. -/
def create_new_conversation (repo : ConversationRepo) (env : TurnEnv) :
    ConversationContext × ConversationRepo :=
  let ctx := freshContext env
  (ctx, save_conversation repo ctx)

/-- `ConversationManager.process_message`.  The registry
(`AgentRegistryPort.get_agent`) is a function from agent type to an
optional agent; `ValueError`s become `Except.error`. -/
def process_message (repo : ConversationRepo)
    (registry : AgentType → Option Agent) (env : TurnEnv)
    (request : ProcessMessageRequest) :
    Except ValueErr (ProcessMessageResponse × ConversationRepo) :=
  let step1 : Except ValueErr (ConversationContext × ConversationRepo) :=
    match request.conversation_id with
    | some cid =>
      match get_conversation repo cid with
      | some ctx => .ok (ctx, repo)
      | none => .error (.conversation_not_found cid.value)
    | none => .ok (create_new_conversation repo env)
  match step1 with
  | .error e => .error e
  | .ok (ctx, repo) =>
    let user_message :=
      Message.create_user_message env.user_message_id request.content env.now
    let ctx := ctx.add_message user_message env.now
    match AgentType.fromValue ctx.current_agent_type with
    | none => .error (.invalid_agent_type ctx.current_agent_type)
    | some atype =>
      match registry atype with
      | none => .error .no_suitable_agent
      | some agent =>
        let agent_response := agent.process_message user_message ctx
        let assistant_message := Message.create_assistant_message
          env.assistant_message_id agent_response.content agent.agent_type
          env.now
        let ctx := ctx.add_message assistant_message env.now
        let ctx :=
          match agent_response.target_agent_type with
          | some t =>
            -- `if agent_response.should_switch_agent and
            --     agent_response.target_agent_type:` — the second operand
            -- is Python truthiness: non-None and non-empty.
            if agent_response.should_switch_agent ∧ t ≠ "" then
              ctx.switch_agent t env.now
            else ctx
          | none => ctx
        let repo := update_conversation repo ctx
        .ok ({ content := agent_response.content,
               conversation_id := ctx.conversation_id,
               agent_type := ctx.current_agent_type,
               metadata := agent_response.metadata }, repo)

/-- `ConversationManager.get_conversation_history`.  The line
`context.messages = context.get_recent_messages(limit)` mutates the very
object held by the in-memory store (Python aliasing), so the explicit
state is updated at the same key. -/
def get_conversation_history (repo : ConversationRepo)
    (cid : ConversationId) (limit : Nat) :
    Option ConversationContext × ConversationRepo :=
  match get_conversation repo cid with
  | none => (none, repo)
  | some ctx =>
    let ctx' := { ctx with messages := ctx.get_recent_messages limit }
    (some ctx', setKey repo cid.value ctx')

/-- `ConversationManager.end_conversation`. -/
def end_conversation (repo : ConversationRepo) (cid : ConversationId) :
    Bool × ConversationRepo :=
  match get_conversation repo cid with
  | none => (false, repo)
  | some ctx =>
    let ctx' := { ctx with state := ConversationState.completed }
    (true, update_conversation repo ctx')

end ConversationManager

/-! ## Claim C1 -/
/-- The user `Message` appended first in a no-conversation-id turn. -/
def c1UserMsg (env : TurnEnv) (content : String) : Message :=
  Message.create_user_message env.user_message_id content env.now

/-- The context as seen by the invoked agent: the fresh context with the
user message appended. -/
def c1CtxWithUser (env : TurnEnv) (content : String) : ConversationContext :=
  (ConversationManager.freshContext env).add_message (c1UserMsg env content)
    env.now

/-- The invoked agent's response on a no-conversation-id turn. -/
def c1AgentResp (agent : Agent) (env : TurnEnv) (content : String) :
    AgentResponse :=
  agent.process_message (c1UserMsg env content) (c1CtxWithUser env content)

/-- The assistant `Message` appended second, tagged with the producing
agent's type. -/
def c1AsstMsg (agent : Agent) (env : TurnEnv) (content : String) : Message :=
  Message.create_assistant_message env.assistant_message_id
    (c1AgentResp agent env content).content agent.agent_type env.now

/-- The context right before the switch decision: fresh context plus the
user and assistant messages. -/
def c1Ctx2 (agent : Agent) (env : TurnEnv) (content : String) :
    ConversationContext :=
  (c1CtxWithUser env content).add_message (c1AsstMsg agent env content)
    env.now

/-- A concrete coordinator agent whose behaviour always hands off to the
web-search agent. -/
def c1AgentW : Agent :=
  { agent_type := "coordinator",
    process_message := fun _ _ =>
      { content := "te derivo con el especialista",
        should_switch_agent := true,
        target_agent_type := some "web_search" } }

/-- A concrete registry holding only the coordinator above. -/
def c1RegistryW : AgentType → Option Agent
  | .coordinator => some c1AgentW
  | _ => none

/-- Concrete turn inputs. -/
def c1EnvW : TurnEnv :=
  { fresh_conversation_id := "cid-1", user_message_id := 1,
    assistant_message_id := 2, now := 0 }

/-! ## Peja coordinator agent
(`src/infrastructure/agents/peja_coordinator.py`) -/
namespace PejaCoordinatorAgent

/-- Web search keywords (Spanish). -/
def web_search_keywords : List String :=
  ["busca", "búsqueda", "buscar", "información sobre", "qué es",
   "documentación", "manual", "tutorial", "guía", "aprende",
   "internet", "web", "online", "google"]

/-- Local IoT keywords (Spanish). -/
def local_keywords : List String :=
  ["dispositivo", "sensor", "temperatura", "humedad", "riego",
   "estado del sistema", "datos", "configuración", "alarma",
   "encender", "apagar", "monitoreo", "estado"]

/-- `PejaCoordinatorAgent.should_switch_agent`, as a function of
`message.content.lower()` (the method lower-cases the content first and
only ever reads `content_lower`). -/
def should_switch_agent (content_lower : String) : Bool × Option String :=
  if web_search_keywords.any (fun k => substrB k content_lower) then
    (true, some AgentType.web_search.val)
  else if local_keywords.any (fun k => substrB k content_lower) then
    (true, some AgentType.local_assistant.val)
  else if substrB "asistente local" content_lower
      || substrB "sistema local" content_lower then
    (true, some AgentType.local_assistant.val)
  else if substrB "buscar en internet" content_lower
      || substrB "búsqueda web" content_lower then
    (true, some AgentType.web_search.val)
  else
    (false, none)

end PejaCoordinatorAgent

/-! ## Regex search (the orchestrator's `re.search` patterns)

The orchestrator's confidence patterns all have the shape
`¿?pre.*(p₁|p₂|…)` or are plain literals.  `re.search` succeeds on
`¿?pre.*(…)` iff `pre` occurs somewhere followed — across non-newline
characters only, since `.` does not match a newline — by one of the
alternatives (a leading optional `¿` never changes whether some match
exists); plain literal patterns are ordinary substring tests. -/
/-- After the prefix has been consumed: scan forward over non-newline
characters for one of the alternatives. -/
def seekTail (posts : List (List Char)) : List Char → Bool
  | [] => posts.any (fun p => listPre p [])
  | c :: cs =>
    posts.any (fun p => listPre p (c :: cs))
      || (c ≠ '\n' && seekTail posts cs)

/-- Occurrence of `pre`, then `.*`, then one of `posts`, anywhere. -/
def searchDotStar (pre : List Char) (posts : List (List Char)) :
    List Char → Bool
  | [] => listPre pre [] && seekTail posts []
  | c :: cs =>
    (listPre pre (c :: cs) && seekTail posts (List.drop pre.length (c :: cs)))
      || searchDotStar pre posts cs

/-- Python `re.search(r"¿?pre.*(p₁|p₂|…)", s) is not None`. -/
def reSearch (pre : String) (posts : List String) (s : String) : Bool :=
  searchDotStar pre.data (posts.map String.data) s.data

/-! ## Agent orchestrator confidence scoring
(`src/usecases/agent_orchestrator.py`, `_calculate_confidence_score`) -/
namespace AgentOrchestrator

/-- High-confidence web-search verbs. -/
def web_verbs : List String :=
  ["buscar", "investigar", "aprender", "estudiar", "explicar"]

/-- High-confidence web-search keywords. -/
def web_keywords : List String :=
  ["información", "documentación", "manual", "tutorial", "guía"]

/-- Colombian web idioms. -/
def colombian_web : List String := ["hacer el favor", "colaborar"]

/-- High-confidence local verbs. -/
def local_verbs : List String :=
  ["muestra", "ver", "revisar", "activar", "configurar", "obtener"]

/-- IoT keywords for the local target. -/
def iot_keywords : List String :=
  ["dispositivo", "sensor", "temperatura", "humedad", "riego", "estado"]

/-- Colombian local idioms. -/
def colombian_local : List String :=
  ["cómo va", "qué tal", "de una", "ya mismo"]

/-- `sum(1 for x in kws if x in content_lower)`. -/
def countMatches (kws : List String) (s : String) : Nat :=
  (kws.filter (fun k => substrB k s)).length

/-- Matches among the web patterns
`[r"¿?cómo.*funciona", r"¿?qué es", r"¿?por qué"]`. -/
def web_pattern_matches (s : String) : Nat :=
  (if reSearch "cómo" ["funciona"] s then 1 else 0)
    + (if substrB "qué es" s then 1 else 0)
    + (if substrB "por qué" s then 1 else 0)

/-- Matches among the local patterns
`[r"¿?qué.*(?:temperatura|estado)", r"¿?cómo está.*sistema"]`. -/
def local_pattern_matches (s : String) : Nat :=
  (if reSearch "qué" ["temperatura", "estado"] s then 1 else 0)
    + (if reSearch "cómo está" ["sistema"] s then 1 else 0)

/-- `AgentOrchestrator._calculate_confidence_score` on the lower-cased
content (`float` arithmetic embedded as exact `ℚ`). -/
def calculate_confidence_score (content_lower : String)
    (agent_type : AgentType) : ℚ :=
  match agent_type with
  | .web_search =>
    let score : ℚ := 0.5
    let score := score
      + min ((countMatches web_verbs content_lower : ℚ) * 0.2) 0.4
    let score := score
      + min ((countMatches web_keywords content_lower : ℚ) * 0.15) 0.3
    let score := score
      + min ((web_pattern_matches content_lower : ℚ) * 0.25) 0.5
    let score :=
      if colombian_web.any (fun e => substrB e content_lower) then
        score + 0.3
      else score
    min score 1
  | .local_assistant =>
    let score : ℚ := 0.5
    let score := score
      + min ((countMatches local_verbs content_lower : ℚ) * 0.2) 0.4
    let score := score
      + min ((countMatches iot_keywords content_lower : ℚ) * 0.15) 0.3
    let score := score
      + min ((local_pattern_matches content_lower : ℚ) * 0.25) 0.5
    let score :=
      if colombian_local.any (fun e => substrB e content_lower) then
        score + 0.3
      else score
    min score 1
  | .coordinator => 0.7

end AgentOrchestrator

/-! ## Gemini LLM client (`src/infrastructure/llm/gemini_client.py`) -/
namespace GeminiClient

/-- `LLMRequest` dataclass (`src/domain/ports/llm_client.py`). -/
structure LLMRequest where
  messages : List Message
  system_prompt : String
  max_tokens : Nat := 1000
  temperature : ℚ := 0.7
  metadata : Option (List (String × String)) := none

/-- `LLMResponse` dataclass. -/
structure LLMResponse where
  content : String
  tokens_used : Option Nat := none
  metadata : Option (List (String × String)) := none
  deriving DecidableEq, Repr

/-- The dict the vendor SDK's `generate_content` returns:
`response.get("content", "")` and `response.get("tokens_used")`. -/
structure SdkResponse where
  content : Option String
  tokens_used : Option Nat
  deriving DecidableEq, Repr

/-- Oracle for one `generate_response` call: whether
`adk.configure(...)`/`adk.client()` would succeed on first use (with the
raised error's text otherwise), and the outcome of everything inside the
`try` block (message conversion, prompt building and the
`generate_content` call), `Except.error` carrying `str(e)`. -/
structure SdkEnv where
  init_ok : Bool
  init_error : String
  sdk_result : Except String SdkResponse
  deriving Repr

/-- `GeminiClient._ensure_client`: `self._client` is `Option Unit`
(`Unit` stands for the opaque ADK client object); on initialization
failure the method logs and re-raises. -/
def ensure_client (client : Option Unit) (env : SdkEnv) :
    Except String (Option Unit) :=
  match client with
  | some c => .ok (some c)
  | none => if env.init_ok then .ok (some ()) else .error env.init_error

/-- The fallback `LLMResponse` built in the `except` branch of
`generate_response`. -/
def fallback_response (e : String) : LLMResponse :=
  { content := "Lo siento, no pude procesar tu solicitud en este momento. Intenta de nuevo más tarde.",
    tokens_used := some 0,
    metadata := some [("error", e)] }

/-- `GeminiClient.generate_response`.  Note the control flow of the
source: `self._ensure_client()` is called BEFORE the `try` block, so an
initialization failure propagates to the caller; only failures inside
the `try` block are caught and mapped to the fallback response. -/
def generate_response (model_name : String) (client : Option Unit)
    (env : SdkEnv) (request : LLMRequest) :
    Except String (Option Unit × LLMResponse) :=
  match ensure_client client env with
  | .error e => .error e
  | .ok client =>
    match env.sdk_result with
    | .ok r =>
      .ok (client,
        { content := r.content.getD "",
          tokens_used := r.tokens_used,
          metadata := some [("model", model_name)] })
    | .error e => .ok (client, fallback_response e)

end GeminiClient

/-! ## Chat handler HTTP boundary
(`src/presentation/http/handlers/chat_handler.py`) -/
/-- Result at the handler boundary: a payload, or a raised
`HTTPException(status_code, detail)`. -/
inductive HttpResult (α : Type) where
  | ok (value : α)
  | httpError (status : Nat) (detail : String)
  deriving DecidableEq, Repr

/-- The HTTP status an outcome produces (FastAPI returns 200 for a plain
payload). -/
def HttpResult.status {α : Type} : HttpResult α → Nat
  | .ok _ => 200
  | .httpError s _ => s

/-- `ChatRequest` pydantic model, after field validation. -/
structure ChatRequest where
  message : String
  conversation_id : Option String := none
  user_id : Option String := none
  deriving DecidableEq, Repr

/-- `ChatResponse` pydantic model. -/
structure ChatResponse where
  response : String
  conversation_id : String
  agent_type : String
  metadata : Option (List (String × String)) := none
  deriving DecidableEq, Repr

/-- `ConversationHistoryResponse` pydantic model (the handler serializes
each message to a dict of its fields; the embedding keeps the messages
themselves, which carry the same data). -/
structure ConversationHistoryResponse where
  conversation_id : String
  messages : List Message
  current_agent : String
  message_count : Nat
  deriving DecidableEq, Repr

namespace ChatHandler

/-- `ChatHandler.process_chat_message`: build the use-case request
(`if request.conversation_id:` is Python truthiness — `None` and the
empty string both mean "no id"), delegate, and map a `ValueError` to
HTTP 400 with its text.  (The `except Exception → 500` arm catches
nothing here: every failure the embedded use case can raise is a
`ValueError`.) -/
def process_chat_message (repo : ConversationRepo)
    (registry : AgentType → Option Agent) (env : TurnEnv)
    (request : ChatRequest) : HttpResult ChatResponse × ConversationRepo :=
  let conversation_id : Option ConversationId :=
    match request.conversation_id with
    | some s => if s = "" then none else some ⟨s⟩
    | none => none
  match ConversationManager.process_message repo registry env
      { content := request.message, conversation_id := conversation_id,
        user_id := request.user_id } with
  | .ok (resp, repo') =>
    (.ok { response := resp.content,
           conversation_id := resp.conversation_id.value,
           agent_type := resp.agent_type,
           metadata := resp.metadata }, repo')
  | .error e => (.httpError 400 e.message, repo)

/-- `ChatHandler.get_conversation_history`: 404 when the use case finds
no conversation. -/
def get_conversation_history (repo : ConversationRepo)
    (conversation_id : String) (limit : Nat) :
    HttpResult ConversationHistoryResponse × ConversationRepo :=
  match ConversationManager.get_conversation_history repo
      ⟨conversation_id⟩ limit with
  | (none, repo') => (.httpError 404 "Conversación no encontrada", repo')
  | (some ctx, repo') =>
    (.ok { conversation_id := conversation_id,
           messages := ctx.messages,
           current_agent := ctx.current_agent_type,
           message_count := ctx.messages.length }, repo')

/-- `ChatHandler.end_conversation`: 404 when the use case reports the
conversation did not exist. -/
def end_conversation (repo : ConversationRepo) (conversation_id : String) :
    HttpResult (List (String × String)) × ConversationRepo :=
  match ConversationManager.end_conversation repo ⟨conversation_id⟩ with
  | (false, repo') => (.httpError 404 "Conversación no encontrada", repo')
  | (true, repo') =>
    (.ok [("message", "Conversación finalizada"),
          ("conversation_id", conversation_id)], repo')

end ChatHandler

/-! ## Rate limiting middleware
(`src/presentation/http/middleware/rate_limit.py`) -/
namespace RateLimitMiddleware

/-- Middleware state: the `self.requests` dict (client ip → list of
`time.time()` timestamps, floats embedded as `ℚ`) and the configured
`self.max_requests` (`settings.rate_limit_requests`, default 60).
`window_seconds` is the literal 60. -/
structure RLState where
  requests : List (String × List ℚ)
  max_requests : Nat

/-- The paths `dispatch` skips. -/
def exempt_paths : List String :=
  ["/health", "/ping", "/docs", "/redoc", "/openapi.json"]

/-- `_cleanup_old_requests`: drop timestamps at or before
`current_time - 60`, deleting the ip's entry if nothing remains. -/
def cleanup_old_requests (st : RLState) (client_ip : String)
    (current_time : ℚ) : RLState :=
  match lookupKey st.requests client_ip with
  | none => st
  | some l =>
    let l' := l.filter (fun req_time => current_time - 60 < req_time)
    if l' = [] then { st with requests := eraseKey st.requests client_ip }
    else { st with requests := setKey st.requests client_ip l' }

/-- `_is_rate_limited`: at least `max_requests` tracked timestamps. -/
def is_rate_limited (st : RLState) (client_ip : String) : Bool :=
  match lookupKey st.requests client_ip with
  | none => false
  | some l => st.max_requests ≤ l.length

/-- `_add_request`. -/
def add_request (st : RLState) (client_ip : String) (current_time : ℚ) :
    RLState :=
  match lookupKey st.requests client_ip with
  | none =>
    { st with requests := setKey st.requests client_ip [current_time] }
  | some l =>
    { st with
      requests := setKey st.requests client_ip (l ++ [current_time]) }

/-- What one request gets from the middleware: passed downstream, or the
429 `HTTPException` whose detail carries `retry_after = 60`. -/
inductive RLOutcome
  | passed
  | limited (retry_after : Nat)
  deriving DecidableEq, Repr

/-- `RateLimitMiddleware.dispatch` for one request. -/
def dispatch (st : RLState) (path client_ip : String)
    (current_time : ℚ) : RLOutcome × RLState :=
  if path ∈ exempt_paths then (.passed, st)
  else
    let st := cleanup_old_requests st client_ip current_time
    if is_rate_limited st client_ip then (.limited 60, st)
    else (.passed, add_request st client_ip current_time)

/-- Dispatch a sequence of requests `(path, client ip, time)` in order. -/
def runSeq (st : RLState) :
    List (String × String × ℚ) → List RLOutcome × RLState
  | [] => ([], st)
  | r :: rs =>
    let p := dispatch st r.1 r.2.1 r.2.2
    let q := runSeq p.2 rs
    (p.1 :: q.1, q.2)

/-- The requests dict when a single client has been seen: absent when it
has no timestamps (cleanup deletes empty entries), else one entry. -/
def entryFor (ip : String) (l : List ℚ) : List (String × List ℚ) :=
  if l = [] then [] else [(ip, l)]

end RateLimitMiddleware

/-- A concrete stored conversation with three messages. -/
def c7Ctx : ConversationContext :=
  { conversation_id := ⟨"c"⟩, state := .active,
    current_agent_type := "coordinator",
    messages :=
      [{ id := 1, role := .user, content := "a", timestamp := 0 },
       { id := 2, role := .assistant, content := "b", timestamp := 1 },
       { id := 3, role := .user, content := "c", timestamp := 2 }],
    created_at := 0, last_updated := 2 }

/-! ## Web search client
(`src/infrastructure/clients/web_search_client.py`) -/
/-- UTF-8 encoding of one character, as byte values. -/
def charUtf8 (c : Char) : List Nat :=
  let n := c.toNat
  if n < 0x80 then [n]
  else if n < 0x800 then [0xC0 + n / 0x40, 0x80 + n % 0x40]
  else if n < 0x10000 then
    [0xE0 + n / 0x1000, 0x80 + (n / 0x40) % 0x40, 0x80 + n % 0x40]
  else
    [0xF0 + n / 0x40000, 0x80 + (n / 0x1000) % 0x40,
     0x80 + (n / 0x40) % 0x40, 0x80 + n % 0x40]

/-- Upper-case hex digit, as `urllib.parse.quote` emits. -/
def hexDigit (n : Nat) : Char :=
  if n < 10 then Char.ofNat (48 + n) else Char.ofNat (55 + n)

/-- The bytes `urllib.parse.quote_plus` leaves unescaped:
ALPHA / DIGIT / `_` `.` `-` `~`. -/
def quoteSafeByte (b : Nat) : Bool :=
  (48 ≤ b && b ≤ 57) || (65 ≤ b && b ≤ 90) || (97 ≤ b && b ≤ 122)
    || b = 95 || b = 46 || b = 45 || b = 126

/-- One byte under `quote_plus`: kept, a space as `+`, or `%XX`. -/
def quotePlusByte (b : Nat) : List Char :=
  if quoteSafeByte b then [Char.ofNat b]
  else if b = 32 then ['+']
  else ['%', hexDigit (b / 16), hexDigit (b % 16)]

/-- `urllib.parse.quote_plus`: UTF-8 encode, then percent-encode byte by
byte with space → `+`. -/
def quotePlus (s : String) : String :=
  ⟨(s.data.flatMap charUtf8).flatMap quotePlusByte⟩

/-- Python `str.lower()` (character-wise; ASCII case mapping, which is
what the mock URLs' structure depends on). -/
def pyLower (s : String) : String :=
  ⟨s.data.map Char.toLower⟩

/-- One search result dict: `title`/`url`/`snippet`/`source`. -/
structure SearchResult where
  title : String
  url : String
  snippet : String
  source : String
  deriving DecidableEq, Repr

namespace WebSearchClient

/-- `WebSearchClient._get_mock_search_results`. -/
def get_mock_search_results (query : String) (max_results : Nat) :
    List SearchResult :=
  ([{ title := "Información sobre " ++ query ++ " - Guía Completa",
      url := "https://example.com/guia-" ++ quotePlus (pyLower query),
      snippet := "Encuentra toda la información que necesitas sobre "
        ++ query ++ ". Guía completa y actualizada.",
      source := "mock_search" },
    { title := "Tutorial: " ++ query ++ " paso a paso",
      url := "https://tutoriales.com/" ++ quotePlus (pyLower query),
      snippet := "Aprende todo sobre " ++ query
        ++ " con nuestro tutorial paso a paso y ejemplos prácticos.",
      source := "mock_search" },
    { title := "FAQ: Preguntas frecuentes sobre " ++ query,
      url := "https://faq.com/" ++ quotePlus (pyLower query),
      snippet := "Las preguntas más frecuentes sobre " ++ query
        ++ " con respuestas detalladas de expertos.",
      source := "mock_search" }]).take max_results

/-- How far `search` gets before any network interaction. -/
inductive SearchOutcome
  | mock_results (results : List SearchResult)
  | network_request (query : String) (max_results : Nat)
  deriving DecidableEq, Repr

/-- `WebSearchClient.search`: `if not self.api_key or self.api_key ==
"your-web-search-api-key"` (Python truthiness: the empty string is
falsy) short-circuits to the mock results with no network call;
otherwise the outbound HTTP request is issued. -/
def search (api_key query : String) (max_results : Nat) : SearchOutcome :=
  if api_key = "" || api_key = "your-web-search-api-key" then
    .mock_results (get_mock_search_results query max_results)
  else
    .network_request query max_results

end WebSearchClient

/-! ## Device entity (`src/domain/entities/device.py`) -/
/-- `SensorData` frozen pydantic model (`value` is a float, embedded as
`ℚ`; `timestamp` an opaque clock reading). -/
structure SensorData where
  sensor_type : String
  value : ℚ
  unit : String
  timestamp : Nat
  metadata : List (String × String) := []
  deriving DecidableEq, Repr

/-- `Device` pydantic entity (`ip_address` kept as its string form). -/
structure Device where
  id : Nat
  mac_address : String
  device_name : String
  ip_address : String
  location_description : String
  device_type : String := "sensor"
  status : String := "unknown"
  last_seen : Option Nat := none
  sensor_data : List SensorData := []
  created_at : Nat
  updated_at : Nat
  deriving DecidableEq, Repr

/-- `Device.add_sensor_data`: append, keep only the last 100 readings,
touch `updated_at`. -/
def Device.add_sensor_data (d : Device) (sd : SensorData) (now : Nat) :
    Device :=
  { d with
    sensor_data := capAppend 100 d.sensor_data sd,
    updated_at := now }

/-- A fresh device: empty `sensor_data` (the pydantic default). -/
def mkFreshDevice (mac name ip loc : String) (c0 u0 : Nat) : Device :=
  { id := 0, mac_address := mac, device_name := name, ip_address := ip,
    location_description := loc, created_at := c0, updated_at := u0 }

/-! ## Alternate conversation entities
(`src/domain/entities/conversation.py`) -/
namespace Entities

/-- Alternate `Message` entity (UUID-keyed, session-scoped). -/
structure Message where
  id : Nat
  session_id : String
  content : String
  role : String
  timestamp : Nat
  metadata : List (String × String) := []
  deriving DecidableEq, Repr

/-- One `conversation_history` entry: the dict
`{"timestamp": ..., "message": ..., "entities": ...}`. -/
structure HistoryEntry where
  timestamp : Nat
  message : String
  entities : List (List (String × String))
  deriving DecidableEq, Repr

/-- Alternate `ConversationContext` entity. -/
structure ConversationContext where
  session_id : String
  user_id : Option String := none
  current_topic : String := ""
  last_mentioned_devices : List String := []
  last_mentioned_location : String := ""
  conversation_history : List HistoryEntry := []
  preferences : List (String × String) := []
  created_at : Nat
  updated_at : Nat
  deriving DecidableEq, Repr

/-- `ConversationContext.add_device_reference`: append if new, keep only
the last 5. -/
def ConversationContext.add_device_reference (c : ConversationContext)
    (device_name : String) : ConversationContext :=
  if device_name ∈ c.last_mentioned_devices then c
  else
    { c with last_mentioned_devices :=
        capAppend 5 c.last_mentioned_devices device_name }

/-- `ConversationContext.add_to_history`: append the entry dict, keep
only the last 20, touch `updated_at`. -/
def ConversationContext.add_to_history (c : ConversationContext)
    (message : String) (entities : List (List (String × String)))
    (now : Nat) : ConversationContext :=
  { c with
    conversation_history := capAppend 20 c.conversation_history
      { timestamp := now, message := message, entities := entities },
    updated_at := now }

/-- A fresh alternate context: empty device references and history. -/
def mkFreshContext (sid : String) (c0 u0 : Nat) : ConversationContext :=
  { session_id := sid, created_at := c0, updated_at := u0 }

/-- Alternate `Conversation` aggregate root. -/
structure Conversation where
  id : Nat
  session_id : String
  user_id : Option String := none
  messages : List Message := []
  context : ConversationContext
  status : String := "active"
  created_at : Nat
  updated_at : Nat
  deriving DecidableEq, Repr

/-- `Conversation.get_recent_messages`:
`self.messages[-limit:] if len(self.messages) > limit else
self.messages`. -/
def Conversation.get_recent_messages (c : Conversation) (limit : Nat) :
    List Message :=
  if limit < c.messages.length then pySliceLast limit c.messages
  else c.messages

end Entities

/-- A concrete wired context with one message. -/
def c10Ctx : ConversationContext :=
  { conversation_id := ⟨"k"⟩, state := .active,
    current_agent_type := "coordinator",
    messages := [{ id := 9, role := .user, content := "hola",
                   timestamp := 0 }],
    created_at := 0, last_updated := 0 }

/-- A concrete alternate conversation with two messages. -/
def c10Conv : Entities.Conversation :=
  { id := 0, session_id := "s",
    messages :=
      [{ id := 1, session_id := "s", content := "a", role := "user",
         timestamp := 0 },
       { id := 2, session_id := "s", content := "b", role := "assistant",
         timestamp := 1 }],
    context := Entities.mkFreshContext "s" 0 0,
    created_at := 0, updated_at := 1 }

/-! ## Theorems -/

theorem listPre_iff (n h : List Char) : listPre n h = true ↔ n <+: h := by
  induction n generalizing h with
  | nil => simp [listPre]
  | cons a as ih =>
    cases h with
    | nil => simp [listPre]
    | cons b bs =>
      simp only [listPre, Bool.and_eq_true, decide_eq_true_eq,
        List.cons_prefix_cons, ih]

theorem listSub_iff (n h : List Char) : listSub n h = true ↔ n <:+: h := by
  induction h with
  | nil => cases n <;> simp [listSub, List.isEmpty]
  | cons c cs ih =>
    simp only [listSub, Bool.or_eq_true, listPre_iff, ih, List.infix_cons_iff]

theorem substrB_iff (n h : String) : substrB n h = true ↔ n.data <:+: h.data := by
  simp [substrB, listSub_iff]

/-- A substring of a substring is a substring. -/
theorem substrB_trans {a b c : String} (h₁ : substrB a b = true)
    (h₂ : substrB b c = true) : substrB a c = true := by
  rw [substrB_iff] at *
  exact h₁.trans h₂

theorem lookupKey_setKey_self {α : Type} (m : List (String × α)) (k : String)
    (v : α) : lookupKey (setKey m k v) k = some v := by
  induction m with
  | nil => simp [setKey, lookupKey]
  | cons p rest ih =>
    by_cases h : p.1 = k
    · simp [setKey, lookupKey, h]
    · simp [setKey, lookupKey, h, ih]

theorem capAppend_snoc {α : Type} (cap : Nat) (s : List α) (x : α) :
    capAppend cap (s.drop (s.length - cap)) x
      = (s ++ [x]).drop ((s ++ [x]).length - cap) := by
  have hform : ∀ (l : List α), capAppend cap l x =
      if cap < l.length + 1 then (l ++ [x]).drop (l.length + 1 - cap)
      else l ++ [x] := by
    intro l
    simp [capAppend]
  rcases lt_or_le s.length cap with hlt | hle
  · have h0 : s.length - cap = 0 := Nat.sub_eq_zero_of_le hlt.le
    rw [h0, List.drop_zero, hform, if_neg (by omega)]
    have h1 : (s ++ [x]).length - cap = 0 := by
      simp only [List.length_append, List.length_singleton]
      omega
    rw [h1, List.drop_zero]
  · have hdl : (s.drop (s.length - cap)).length = cap := by
      simp only [List.length_drop]
      omega
    rw [hform, if_pos (by rw [hdl]; omega), hdl]
    have h1 : cap + 1 - cap = 1 := by omega
    rw [h1]
    rcases Nat.eq_zero_or_pos cap with hc0 | hcpos
    · subst hc0
      simp
    · have hd1 : (s.drop (s.length - cap) ++ [x]).drop 1
          = (s.drop (s.length - cap)).drop 1 ++ [x] :=
        List.drop_append_of_le_length (by rw [hdl]; omega)
      rw [hd1, List.drop_drop]
      have h2 : (s ++ [x]).length - cap = s.length + 1 - cap := by
        simp
      rw [h2, List.drop_append_of_le_length
        (show s.length + 1 - cap ≤ s.length by omega),
        show s.length - cap + 1 = s.length + 1 - cap by omega]

theorem foldl_capAppend {α : Type} (cap : Nat) :
    ∀ (args : List α) (s : List α),
      args.foldl (capAppend cap) (s.drop (s.length - cap))
        = (s ++ args).drop ((s ++ args).length - cap) := by
  intro args
  induction args with
  | nil => intro s; simp
  | cons a as ih =>
    intro s
    simp only [List.foldl_cons]
    rw [capAppend_snoc]
    have := ih (s ++ [a])
    rw [this]
    simp

/-- Folding the capped append over a fresh list retains exactly the most
recent `cap` arguments, oldest evicted first. -/
theorem foldl_capAppend_nil {α : Type} (cap : Nat) (args : List α) :
    args.foldl (capAppend cap) [] = args.drop (args.length - cap) := by
  have := foldl_capAppend cap args []
  simpa using this

/-- C1: a `process_message` turn with no conversation id creates a new
context in the `active` state with current agent type `coordinator`;
exactly the user message then the assistant message (tagged with the
producing agent's type) are appended; if the response signals a switch
with a (non-empty) target, the persisted context's `current_agent_type`
is that target, otherwise it stays `coordinator`; and the returned
`agent_type` equals the persisted post-switch `current_agent_type`. -/
theorem c1_process_message_new_conversation
    (repo : ConversationRepo) (registry : AgentType → Option Agent)
    (env : TurnEnv) (content : String) (uid : Option String) (agent : Agent)
    (hreg : registry AgentType.coordinator = some agent) :
    ∃ out repo',
      ConversationManager.process_message repo registry env
          { content := content, conversation_id := none, user_id := uid }
        = .ok (out, repo') ∧
      (ConversationManager.freshContext env).state = .active ∧
      (ConversationManager.freshContext env).current_agent_type
        = AgentType.coordinator.val ∧
      (ConversationManager.freshContext env).messages = [] ∧
      ∃ ctxF,
        get_conversation repo' ⟨env.fresh_conversation_id⟩ = some ctxF ∧
        ctxF.messages = [c1UserMsg env content, c1AsstMsg agent env content] ∧
        (c1UserMsg env content).role = .user ∧
        (c1UserMsg env content).content = content ∧
        (c1AsstMsg agent env content).role = .assistant ∧
        (c1AsstMsg agent env content).content
          = (c1AgentResp agent env content).content ∧
        (c1AsstMsg agent env content).agent_type = some agent.agent_type ∧
        (∀ t, (c1AgentResp agent env content).should_switch_agent = true →
          (c1AgentResp agent env content).target_agent_type = some t →
          t ≠ "" → ctxF.current_agent_type = t) ∧
        (((c1AgentResp agent env content).should_switch_agent = false ∨
            (c1AgentResp agent env content).target_agent_type = none ∨
            (c1AgentResp agent env content).target_agent_type = some "") →
          ctxF.current_agent_type = AgentType.coordinator.val) ∧
        out.agent_type = ctxF.current_agent_type ∧
        out.content = (c1AgentResp agent env content).content ∧
        out.conversation_id = ⟨env.fresh_conversation_id⟩ := by
  have heval : ConversationManager.process_message repo registry env
      { content := content, conversation_id := none, user_id := uid }
      = (let ctxF :=
          match (c1AgentResp agent env content).target_agent_type with
          | some t =>
            if (c1AgentResp agent env content).should_switch_agent ∧ t ≠ ""
            then (c1Ctx2 agent env content).switch_agent t env.now
            else c1Ctx2 agent env content
          | none => c1Ctx2 agent env content
         Except.ok
          ({ content := (c1AgentResp agent env content).content,
             conversation_id := ctxF.conversation_id,
             agent_type := ctxF.current_agent_type,
             metadata := (c1AgentResp agent env content).metadata },
           update_conversation
             (save_conversation repo (ConversationManager.freshContext env))
             ctxF)) := by
    simp only [ConversationManager.process_message,
      ConversationManager.create_new_conversation,
      c1Ctx2, c1AsstMsg, c1AgentResp, c1CtxWithUser, c1UserMsg]
    rw [show AgentType.fromValue
        (((ConversationManager.freshContext env).add_message
          (Message.create_user_message env.user_message_id content env.now)
          env.now).current_agent_type) = some AgentType.coordinator from rfl]
    dsimp only
    rw [hreg]
  rcases hT : (c1AgentResp agent env content).target_agent_type with _ | t
  · simp only [hT] at heval
    refine ⟨_, _, heval, rfl, rfl, rfl, c1Ctx2 agent env content,
      lookupKey_setKey_self _ _ _, rfl, rfl, rfl, rfl, rfl, rfl,
      ?_, fun _ => rfl, rfl, rfl, rfl⟩
    intro t' _ h2 _
    cases h2
  · simp only [hT] at heval
    by_cases hS : (c1AgentResp agent env content).should_switch_agent = true
        ∧ t ≠ ""
    · rw [if_pos hS] at heval
      refine ⟨_, _, heval, rfl, rfl, rfl,
        (c1Ctx2 agent env content).switch_agent t env.now,
        lookupKey_setKey_self _ _ _, rfl, rfl, rfl, rfl, rfl, rfl,
        ?_, ?_, rfl, rfl, rfl⟩
      · intro t' _ h2 _
        cases h2
        rfl
      · intro h
        rcases h with h | h | h
        · rw [hS.1] at h
          cases h
        · cases h
        · cases h
          exact absurd rfl hS.2
    · rw [if_neg hS] at heval
      refine ⟨_, _, heval, rfl, rfl, rfl, c1Ctx2 agent env content,
        lookupKey_setKey_self _ _ _, rfl, rfl, rfl, rfl, rfl, rfl,
        ?_, fun _ => rfl, rfl, rfl, rfl⟩
      intro t' h1 h2 h3
      cases h2
      exact absurd ⟨h1, h3⟩ hS

/-- Witness for C1 at concrete inputs. -/
theorem c1_process_message_new_conversation_witness :
    c1RegistryW AgentType.coordinator = some c1AgentW ∧
    (∃ out repo',
      ConversationManager.process_message [] c1RegistryW c1EnvW
          { content := "hola", conversation_id := none, user_id := none }
        = .ok (out, repo') ∧
      (ConversationManager.freshContext c1EnvW).state = .active ∧
      (ConversationManager.freshContext c1EnvW).current_agent_type
        = AgentType.coordinator.val ∧
      (ConversationManager.freshContext c1EnvW).messages = [] ∧
      ∃ ctxF,
        get_conversation repo' ⟨c1EnvW.fresh_conversation_id⟩ = some ctxF ∧
        ctxF.messages
          = [c1UserMsg c1EnvW "hola", c1AsstMsg c1AgentW c1EnvW "hola"] ∧
        (c1UserMsg c1EnvW "hola").role = .user ∧
        (c1UserMsg c1EnvW "hola").content = "hola" ∧
        (c1AsstMsg c1AgentW c1EnvW "hola").role = .assistant ∧
        (c1AsstMsg c1AgentW c1EnvW "hola").content
          = (c1AgentResp c1AgentW c1EnvW "hola").content ∧
        (c1AsstMsg c1AgentW c1EnvW "hola").agent_type
          = some c1AgentW.agent_type ∧
        (∀ t,
          (c1AgentResp c1AgentW c1EnvW "hola").should_switch_agent = true →
          (c1AgentResp c1AgentW c1EnvW "hola").target_agent_type = some t →
          t ≠ "" → ctxF.current_agent_type = t) ∧
        (((c1AgentResp c1AgentW c1EnvW "hola").should_switch_agent = false ∨
            (c1AgentResp c1AgentW c1EnvW "hola").target_agent_type = none ∨
            (c1AgentResp c1AgentW c1EnvW "hola").target_agent_type
              = some "") →
          ctxF.current_agent_type = AgentType.coordinator.val) ∧
        out.agent_type = ctxF.current_agent_type ∧
        out.content = (c1AgentResp c1AgentW c1EnvW "hola").content ∧
        out.conversation_id = ⟨c1EnvW.fresh_conversation_id⟩) :=
  ⟨rfl, c1_process_message_new_conversation [] c1RegistryW c1EnvW "hola"
    none c1AgentW rfl⟩

/-! ## Claim C2 -/
/-- C2: on the lower-cased content, `should_switch_agent` targets
`web_search` whenever any web-search keyword occurs (whatever else
occurs); otherwise targets `local_assistant` whenever any local keyword
or the phrase "asistente local"/"sistema local" occurs; otherwise
reports no switch. -/
theorem c2_should_switch_agent_routing (s : String) :
    (PejaCoordinatorAgent.web_search_keywords.any
        (fun k => substrB k s) = true →
      PejaCoordinatorAgent.should_switch_agent s
        = (true, some AgentType.web_search.val)) ∧
    (PejaCoordinatorAgent.web_search_keywords.any
        (fun k => substrB k s) = false →
      (PejaCoordinatorAgent.local_keywords.any (fun k => substrB k s) = true
        ∨ substrB "asistente local" s = true
        ∨ substrB "sistema local" s = true) →
      PejaCoordinatorAgent.should_switch_agent s
        = (true, some AgentType.local_assistant.val)) ∧
    (PejaCoordinatorAgent.web_search_keywords.any
        (fun k => substrB k s) = false →
      PejaCoordinatorAgent.local_keywords.any
        (fun k => substrB k s) = false →
      substrB "asistente local" s = false →
      substrB "sistema local" s = false →
      PejaCoordinatorAgent.should_switch_agent s = (false, none)) := by
  refine ⟨?_, ?_, ?_⟩
  · intro h
    simp [PejaCoordinatorAgent.should_switch_agent, h]
  · intro h1 h2
    rcases hk : PejaCoordinatorAgent.local_keywords.any
        (fun k => substrB k s) with _ | _
    · rcases h2 with h2 | h2 | h2
      · rw [hk] at h2
        cases h2
      · simp [PejaCoordinatorAgent.should_switch_agent, h1, hk, h2]
      · simp [PejaCoordinatorAgent.should_switch_agent, h1, hk, h2]
    · simp [PejaCoordinatorAgent.should_switch_agent, h1, hk]
  · intro h1 h2 h3 h4
    have hall := List.any_eq_false.mp h1
    have hbuscar : substrB "buscar" s = false := by
      rcases hb : substrB "buscar" s with _ | _
      · rfl
      · exact absurd hb (hall "buscar" (by decide))
    have hweb : substrB "web" s = false := by
      rcases hb : substrB "web" s with _ | _
      · rfl
      · exact absurd hb (hall "web" (by decide))
    have hb1 : substrB "buscar en internet" s = false := by
      rcases hb : substrB "buscar en internet" s with _ | _
      · rfl
      · exact absurd (@substrB_trans "buscar" "buscar en internet" s
            (by decide) hb)
          (by rw [hbuscar]; exact fun h => Bool.noConfusion h)
    have hb2 : substrB "búsqueda web" s = false := by
      rcases hb : substrB "búsqueda web" s with _ | _
      · rfl
      · exact absurd (@substrB_trans "web" "búsqueda web" s
            (by decide) hb)
          (by rw [hweb]; exact fun h => Bool.noConfusion h)
    simp [PejaCoordinatorAgent.should_switch_agent, h1, h2, h3, h4, hb1, hb2]

/-- Witness for C2: the spec's own precedence example routes to
web-search; a local-keyword message routes to the local assistant; a
neutral message does not switch. -/
theorem c2_should_switch_agent_routing_witness :
    PejaCoordinatorAgent.should_switch_agent
        "buscar información sobre riego por goteo"
      = (true, some AgentType.web_search.val) ∧
    PejaCoordinatorAgent.should_switch_agent "cómo va el cultivo, mija"
      = (false, none) ∧
    PejaCoordinatorAgent.should_switch_agent "enciende la alarma"
      = (true, some AgentType.local_assistant.val) :=
  ⟨(c2_should_switch_agent_routing
      "buscar información sobre riego por goteo").1 (by decide),
   (c2_should_switch_agent_routing "cómo va el cultivo, mija").2.2
     (by decide) (by decide) (by decide) (by decide),
   (c2_should_switch_agent_routing "enciende la alarma").2.1
     (by decide) (Or.inl (by decide))⟩

/-! ## Claim C5 -/
/-- The shared bound argument: a base of 0.5 plus non-negative capped
bonuses, clamped at 1, lies in `[0.5, 1]`. -/
theorem c5_score_bounds_aux (a b c d : ℚ) (ha : 0 ≤ a) (hb : 0 ≤ b)
    (hc : 0 ≤ c) (hd : 0 ≤ d) :
    (0.5 : ℚ) ≤ min (0.5 + a + b + c + d) 1
      ∧ min ((0.5 : ℚ) + a + b + c + d) 1 ≤ 1 :=
  ⟨le_min (by linarith) (by norm_num), min_le_right _ _⟩

/-- C5: the confidence score equals the additive capped formula for each
specialist target, is the fixed 0.7 for the coordinator, and for a
specialist target always lies between 0.5 and 1.0 inclusive. -/
theorem c5_calculate_confidence_score (s : String) :
    (AgentOrchestrator.calculate_confidence_score s .web_search
      = min ((0.5 : ℚ)
          + min ((AgentOrchestrator.countMatches
              AgentOrchestrator.web_verbs s : ℚ) * 0.2) 0.4
          + min ((AgentOrchestrator.countMatches
              AgentOrchestrator.web_keywords s : ℚ) * 0.15) 0.3
          + min ((AgentOrchestrator.web_pattern_matches s : ℚ) * 0.25) 0.5
          + (if AgentOrchestrator.colombian_web.any (fun e => substrB e s)
             then (0.3 : ℚ) else 0)) 1) ∧
    (AgentOrchestrator.calculate_confidence_score s .local_assistant
      = min ((0.5 : ℚ)
          + min ((AgentOrchestrator.countMatches
              AgentOrchestrator.local_verbs s : ℚ) * 0.2) 0.4
          + min ((AgentOrchestrator.countMatches
              AgentOrchestrator.iot_keywords s : ℚ) * 0.15) 0.3
          + min ((AgentOrchestrator.local_pattern_matches s : ℚ) * 0.25) 0.5
          + (if AgentOrchestrator.colombian_local.any (fun e => substrB e s)
             then (0.3 : ℚ) else 0)) 1) ∧
    AgentOrchestrator.calculate_confidence_score s .coordinator = 0.7 ∧
    ((0.5 : ℚ) ≤ AgentOrchestrator.calculate_confidence_score s .web_search
      ∧ AgentOrchestrator.calculate_confidence_score s .web_search ≤ 1) ∧
    ((0.5 : ℚ)
        ≤ AgentOrchestrator.calculate_confidence_score s .local_assistant
      ∧ AgentOrchestrator.calculate_confidence_score s .local_assistant
        ≤ 1) := by
  have hweb : AgentOrchestrator.calculate_confidence_score s .web_search
      = min ((0.5 : ℚ)
          + min ((AgentOrchestrator.countMatches
              AgentOrchestrator.web_verbs s : ℚ) * 0.2) 0.4
          + min ((AgentOrchestrator.countMatches
              AgentOrchestrator.web_keywords s : ℚ) * 0.15) 0.3
          + min ((AgentOrchestrator.web_pattern_matches s : ℚ) * 0.25) 0.5
          + (if AgentOrchestrator.colombian_web.any (fun e => substrB e s)
             then (0.3 : ℚ) else 0)) 1 := by
    simp only [AgentOrchestrator.calculate_confidence_score]
    rcases h : AgentOrchestrator.colombian_web.any (fun e => substrB e s)
      with _ | _ <;> simp [h]
  have hloc : AgentOrchestrator.calculate_confidence_score s .local_assistant
      = min ((0.5 : ℚ)
          + min ((AgentOrchestrator.countMatches
              AgentOrchestrator.local_verbs s : ℚ) * 0.2) 0.4
          + min ((AgentOrchestrator.countMatches
              AgentOrchestrator.iot_keywords s : ℚ) * 0.15) 0.3
          + min ((AgentOrchestrator.local_pattern_matches s : ℚ) * 0.25) 0.5
          + (if AgentOrchestrator.colombian_local.any (fun e => substrB e s)
             then (0.3 : ℚ) else 0)) 1 := by
    simp only [AgentOrchestrator.calculate_confidence_score]
    rcases h : AgentOrchestrator.colombian_local.any (fun e => substrB e s)
      with _ | _ <;> simp [h]
  have hnn : ∀ (n : Nat) (q cap : ℚ), 0 ≤ q → 0 ≤ cap →
      0 ≤ min ((n : ℚ) * q) cap := by
    intro n q cap hq hcap
    exact le_min (mul_nonneg (Nat.cast_nonneg n) hq) hcap
  have hif : ∀ (b : Bool), 0 ≤ (if b = true then (0.3 : ℚ) else 0) := by
    intro b
    rcases b with _ | _ <;> norm_num
  refine ⟨hweb, hloc, rfl, ?_, ?_⟩
  · rw [hweb]
    exact c5_score_bounds_aux _ _ _ _
      (hnn _ _ _ (by norm_num) (by norm_num))
      (hnn _ _ _ (by norm_num) (by norm_num))
      (hnn _ _ _ (by norm_num) (by norm_num))
      (hif _)
  · rw [hloc]
    exact c5_score_bounds_aux _ _ _ _
      (hnn _ _ _ (by norm_num) (by norm_num))
      (hnn _ _ _ (by norm_num) (by norm_num))
      (hnn _ _ _ (by norm_num) (by norm_num))
      (hif _)

/-! ## Claim C3 -/
/-- Counterexample to C3 as stated: with no client yet created and a
failing SDK initialization, `generate_response` propagates the exception
(`Except.error`) instead of returning the fallback `LLMResponse`. -/
theorem c3_counterexample_init_failure_propagates :
    GeminiClient.generate_response "gemini-pro" none
        { init_ok := false, init_error := "ADK init failed",
          sdk_result := .error "unreached" }
        { messages := [], system_prompt := "" }
      = .error "ADK init failed" := rfl

/-- C3 (amended): once the client is initialized — or when lazy
initialization succeeds on first use — every failure inside the `try`
block yields the Spanish-apology fallback with zero tokens and an error
metadata entry, and no exception propagates; but a failure to initialize
the lazily-created client on first use does propagate to the caller. -/
theorem c3_generate_response_swallows_try_block_failures
    (model_name : String) (client : Option Unit)
    (env : GeminiClient.SdkEnv) (request : GeminiClient.LLMRequest)
    (e : String)
    (hinit : client = some () ∨ env.init_ok = true)
    (hsdk : env.sdk_result = .error e) :
    ∃ c', GeminiClient.generate_response model_name client env request
        = .ok (c', GeminiClient.fallback_response e) ∧
      (GeminiClient.fallback_response e).content
        = "Lo siento, no pude procesar tu solicitud en este momento. Intenta de nuevo más tarde." ∧
      (GeminiClient.fallback_response e).tokens_used = some 0 ∧
      (GeminiClient.fallback_response e).metadata = some [("error", e)] := by
  rcases hinit with h | h
  · subst h
    refine ⟨some (), ?_, rfl, rfl, rfl⟩
    simp [GeminiClient.generate_response, GeminiClient.ensure_client, hsdk]
  · rcases client with _ | c
    · refine ⟨some (), ?_, rfl, rfl, rfl⟩
      simp [GeminiClient.generate_response, GeminiClient.ensure_client, h,
        hsdk]
    · refine ⟨some c, ?_, rfl, rfl, rfl⟩
      simp [GeminiClient.generate_response, GeminiClient.ensure_client,
        hsdk]

/-- Witness for the amended C3 at concrete inputs: successful lazy
initialization, failing SDK call. -/
theorem c3_generate_response_swallows_try_block_failures_witness :
    ((none : Option Unit) = some () ∨
      ({ init_ok := true, init_error := "",
         sdk_result := .error "boom" } : GeminiClient.SdkEnv).init_ok
        = true) ∧
    ({ init_ok := true, init_error := "",
       sdk_result := .error "boom" } : GeminiClient.SdkEnv).sdk_result
      = .error "boom" ∧
    ∃ c', GeminiClient.generate_response "gemini-pro" none
        { init_ok := true, init_error := "", sdk_result := .error "boom" }
        { messages := [], system_prompt := "" }
        = .ok (c', GeminiClient.fallback_response "boom") ∧
      (GeminiClient.fallback_response "boom").content
        = "Lo siento, no pude procesar tu solicitud en este momento. Intenta de nuevo más tarde." ∧
      (GeminiClient.fallback_response "boom").tokens_used = some 0 ∧
      (GeminiClient.fallback_response "boom").metadata
        = some [("error", "boom")] :=
  ⟨Or.inr rfl, rfl,
    c3_generate_response_swallows_try_block_failures "gemini-pro" none
      { init_ok := true, init_error := "", sdk_result := .error "boom" }
      { messages := [], system_prompt := "" } "boom" (Or.inr rfl) rfl⟩

/-! ## Claim C4 -/
/-- Counterexample to C4 as stated: `POST /chat/message` with an unknown
`conversation_id` produces HTTP 400 (the use case's `ValueError` is
caught by the handler's `except ValueError` arm), not the claimed 404. -/
theorem c4_counterexample_post_unknown_id_maps_to_400 :
    (ChatHandler.process_chat_message [] (fun _ => none)
        { fresh_conversation_id := "n", user_message_id := 1,
          assistant_message_id := 2, now := 0 }
        { message := "hola", conversation_id := some "x" }).1
      = .httpError 400 "Conversation x not found" ∧
    ¬ (ChatHandler.process_chat_message [] (fun _ => none)
        { fresh_conversation_id := "n", user_message_id := 1,
          assistant_message_id := 2, now := 0 }
        { message := "hola", conversation_id := some "x" }).1.status
      = 404 := by
  constructor
  · rfl
  · intro h
    simp [ChatHandler.process_chat_message,
      ConversationManager.process_message, get_conversation, lookupKey,
      HttpResult.status] at h

/-- C4 (amended): an unknown conversation id yields HTTP 404 on
`GET /chat/conversation/{id}` and `DELETE /chat/conversation/{id}`, but
HTTP 400 (with the `ValueError`'s text) on `POST /chat/message`, whose
handler maps every `ValueError` — the not-found one included — to 400. -/
theorem c4_not_found_boundary_mapping (repo : ConversationRepo)
    (registry : AgentType → Option Agent) (env : TurnEnv)
    (cid msg : String) (uid : Option String) (limit : Nat)
    (hmiss : lookupKey repo cid = none) (hne : cid ≠ "") :
    (ChatHandler.process_chat_message repo registry env
        { message := msg, conversation_id := some cid, user_id := uid }).1
      = .httpError 400 ("Conversation " ++ cid ++ " not found") ∧
    (ChatHandler.get_conversation_history repo cid limit).1
      = .httpError 404 "Conversación no encontrada" ∧
    (ChatHandler.end_conversation repo cid).1
      = .httpError 404 "Conversación no encontrada" := by
  refine ⟨?_, ?_, ?_⟩
  · simp [ChatHandler.process_chat_message, hne,
      ConversationManager.process_message, get_conversation, hmiss,
      ValueErr.message]
  · simp [ChatHandler.get_conversation_history,
      ConversationManager.get_conversation_history, get_conversation,
      hmiss]
  · simp [ChatHandler.end_conversation,
      ConversationManager.end_conversation, get_conversation, hmiss]

/-- Witness for the amended C4 at concrete inputs. -/
theorem c4_not_found_boundary_mapping_witness :
    lookupKey ([] : ConversationRepo) "x" = none ∧ "x" ≠ "" ∧
    ((ChatHandler.process_chat_message [] (fun _ => none)
        { fresh_conversation_id := "n", user_message_id := 1,
          assistant_message_id := 2, now := 0 }
        { message := "hola", conversation_id := some "x" }).1
      = .httpError 400 ("Conversation " ++ "x" ++ " not found") ∧
    (ChatHandler.get_conversation_history [] "x" 50).1
      = .httpError 404 "Conversación no encontrada" ∧
    (ChatHandler.end_conversation [] "x").1
      = .httpError 404 "Conversación no encontrada") :=
  ⟨rfl, by decide,
    c4_not_found_boundary_mapping [] (fun _ => none)
      { fresh_conversation_id := "n", user_message_id := 1,
        assistant_message_id := 2, now := 0 }
      "x" "hola" none 50 rfl (by decide)⟩

theorem rl_runSeq_append (st : RateLimitMiddleware.RLState)
    (xs ys : List (String × String × ℚ)) :
    RateLimitMiddleware.runSeq st (xs ++ ys)
      = ((RateLimitMiddleware.runSeq st xs).1
          ++ (RateLimitMiddleware.runSeq
              (RateLimitMiddleware.runSeq st xs).2 ys).1,
         (RateLimitMiddleware.runSeq
           (RateLimitMiddleware.runSeq st xs).2 ys).2) := by
  induction xs generalizing st with
  | nil => simp [RateLimitMiddleware.runSeq]
  | cons r rs ih =>
    simp [RateLimitMiddleware.runSeq, ih]

theorem rl_dispatch_pass (maxR : Nat) (ip path : String) (t : ℚ)
    (l : List ℚ) (hpath : path ∉ RateLimitMiddleware.exempt_paths)
    (hkeep : ∀ x ∈ l, t - 60 < x) (hlen : l.length < maxR) :
    RateLimitMiddleware.dispatch ⟨RateLimitMiddleware.entryFor ip l, maxR⟩
        path ip t
      = (.passed, ⟨[(ip, l ++ [t])], maxR⟩) := by
  rcases hl : l with _ | ⟨a, l'⟩
  · simp [RateLimitMiddleware.dispatch, hpath,
      RateLimitMiddleware.entryFor, RateLimitMiddleware.cleanup_old_requests,
      RateLimitMiddleware.is_rate_limited, RateLimitMiddleware.add_request,
      lookupKey, setKey]
  · subst hl
    have hfilt : (a :: l').filter
        (fun req_time => decide (t - 60 < req_time)) = a :: l' :=
      List.filter_eq_self.mpr (fun x hx => decide_eq_true (hkeep x hx))
    have hlen' : ¬ maxR ≤ (a :: l').length := Nat.not_le.mpr hlen
    simp [RateLimitMiddleware.dispatch, hpath,
      RateLimitMiddleware.entryFor, RateLimitMiddleware.cleanup_old_requests,
      RateLimitMiddleware.is_rate_limited, RateLimitMiddleware.add_request,
      lookupKey, setKey, hfilt, hlen']
    simpa using hlen

theorem rl_dispatch_limited (maxR : Nat) (ip path : String) (t : ℚ)
    (l : List ℚ) (hpath : path ∉ RateLimitMiddleware.exempt_paths)
    (hkeep : ∀ x ∈ l, t - 60 < x) (hne : l ≠ [])
    (hlen : maxR ≤ l.length) :
    RateLimitMiddleware.dispatch ⟨RateLimitMiddleware.entryFor ip l, maxR⟩
        path ip t
      = (.limited 60, ⟨[(ip, l)], maxR⟩) := by
  have hfilt : l.filter (fun req_time => decide (t - 60 < req_time)) = l :=
    List.filter_eq_self.mpr (fun x hx => decide_eq_true (hkeep x hx))
  simp [RateLimitMiddleware.dispatch, hpath,
    RateLimitMiddleware.entryFor, RateLimitMiddleware.cleanup_old_requests,
    RateLimitMiddleware.is_rate_limited, lookupKey, setKey, hfilt, hne,
    hlen]

theorem rl_runSeq_all_pass (maxR : Nat) (ip path : String)
    (hpath : path ∉ RateLimitMiddleware.exempt_paths) :
    ∀ (ts l : List ℚ),
      (∀ t ∈ ts, ∀ x ∈ l ++ ts, t - 60 < x) →
      l.length + ts.length ≤ maxR →
      RateLimitMiddleware.runSeq ⟨RateLimitMiddleware.entryFor ip l, maxR⟩
          (ts.map (fun t => (path, ip, t)))
        = (List.replicate ts.length .passed,
           ⟨RateLimitMiddleware.entryFor ip (l ++ ts), maxR⟩) := by
  intro ts
  induction ts with
  | nil =>
    intro l _ _
    simp [RateLimitMiddleware.runSeq]
  | cons t rest ih =>
    intro l hwin hlen
    have hkeep : ∀ x ∈ l, t - 60 < x := by
      intro x hx
      exact hwin t (by simp) x (by simp [hx])
    have hstep := rl_dispatch_pass maxR ip path t l hpath hkeep (by
      simp at hlen
      omega)
    have hrec := ih (l ++ [t]) (by
      intro t' ht' x hx
      refine hwin t' (by simp [ht']) x ?_
      simp only [List.append_assoc, List.singleton_append] at hx
      exact hx) (by
      simp at hlen ⊢
      omega)
    have hent : RateLimitMiddleware.entryFor ip (l ++ [t])
        = [(ip, l ++ [t])] := by
      simp [RateLimitMiddleware.entryFor]
    simp only [List.map_cons, RateLimitMiddleware.runSeq, hstep, ← hent,
      hrec, List.append_assoc, List.singleton_append]
    simp [List.replicate_succ]

/-! ## Claim C6 -/
/-- C6: from a fresh state, a same-client burst of `max_requests + 1`
requests to a non-exempt path inside one 60-second window yields
`max_requests` passes and then a 429 with `retry_after = 60`; and a
request to an exempt path is never rate-limited, whatever the state. -/
theorem c6_rate_limit_window (ip path : String) (ts : List ℚ) (maxR : Nat)
    (hpath : path ∉ RateLimitMiddleware.exempt_paths)
    (hmax : 1 ≤ maxR)
    (hlen : ts.length = maxR + 1)
    (hwin : ∀ t ∈ ts, ∀ u ∈ ts, u - 60 < t) :
    (RateLimitMiddleware.runSeq ⟨[], maxR⟩
        (ts.map (fun t => (path, ip, t)))).1
      = List.replicate maxR .passed ++ [.limited 60] ∧
    ∀ (st : RateLimitMiddleware.RLState) (p ip' : String) (t : ℚ),
      p ∈ RateLimitMiddleware.exempt_paths →
      RateLimitMiddleware.dispatch st p ip' t = (.passed, st) := by
  constructor
  · have hne : ts ≠ [] := by
      intro h
      rw [h] at hlen
      simp at hlen
    have hsplit : ts.dropLast ++ [ts.getLast hne] = ts :=
      List.dropLast_append_getLast hne
    have hdl : ts.dropLast.length = maxR := by
      simp [List.length_dropLast, hlen]
    have hfront := rl_runSeq_all_pass maxR ip path hpath ts.dropLast []
      (by
        intro t ht x hx
        simp only [List.nil_append] at hx
        exact hwin x (List.mem_of_mem_dropLast hx) t
          (List.mem_of_mem_dropLast ht))
      (by simp [hdl])
    have hfrontne : ts.dropLast ≠ [] := by
      intro h
      rw [h] at hdl
      simp at hdl
      omega
    have hlast := rl_dispatch_limited maxR ip path (ts.getLast hne)
      ts.dropLast hpath
      (by
        intro x hx
        exact hwin x (List.mem_of_mem_dropLast hx) (ts.getLast hne)
          (List.getLast_mem hne))
      hfrontne (le_of_eq hdl.symm)
    calc (RateLimitMiddleware.runSeq ⟨[], maxR⟩
            (ts.map (fun t => (path, ip, t)))).1
        = (RateLimitMiddleware.runSeq ⟨[], maxR⟩
            ((ts.dropLast ++ [ts.getLast hne]).map
              (fun t => (path, ip, t)))).1 := by rw [hsplit]
      _ = List.replicate maxR .passed ++ [.limited 60] := by
          rw [List.map_append, rl_runSeq_append]
          have h0 : RateLimitMiddleware.entryFor ip ([] : List ℚ) = [] := by
            simp [RateLimitMiddleware.entryFor]
          rw [h0, List.nil_append] at hfront
          simp only [hfront, hdl, List.map_singleton,
            RateLimitMiddleware.runSeq, hlast]
  · intro st p ip' t hp
    simp [RateLimitMiddleware.dispatch, hp]

/-- Witness for C6: 61 same-instant requests from one client against
`/chat/message` with the default limit of 60. -/
theorem c6_rate_limit_window_witness :
    "/chat/message" ∉ RateLimitMiddleware.exempt_paths ∧
    1 ≤ 60 ∧
    (List.replicate 61 (0 : ℚ)).length = 60 + 1 ∧
    (RateLimitMiddleware.runSeq ⟨[], 60⟩
        ((List.replicate 61 (0 : ℚ)).map
          (fun t => ("/chat/message", "10.0.0.7", t)))).1
      = List.replicate 60 .passed ++ [.limited 60] :=
  ⟨by decide, by decide, by simp,
    (c6_rate_limit_window "10.0.0.7" "/chat/message"
      (List.replicate 61 (0 : ℚ)) 60 (by decide) (by decide) (by simp)
      (by
        intro t ht u hu
        rw [List.eq_of_mem_replicate ht, List.eq_of_mem_replicate hu]
        norm_num)).1⟩

/-! ## Claim C7 -/
/-- C7: for a stored conversation and `limit ≥ 1`,
`get_conversation_history` returns the context with its message list
replaced by the most recent `min limit m` messages in order (a suffix of
the original), all other fields unchanged — and because the store hands
out the very object it holds, the truncation lands in the store: a
subsequent read of the same conversation sees at most `limit`
messages. -/
theorem c7_get_conversation_history_truncates_in_place
    (repo : ConversationRepo) (cid : ConversationId) (limit : Nat)
    (ctx : ConversationContext)
    (hget : get_conversation repo cid = some ctx) (hl : 1 ≤ limit) :
    ∃ ctx',
      ConversationManager.get_conversation_history repo cid limit
        = (some ctx', setKey repo cid.value ctx') ∧
      ctx'.messages = ctx.messages.drop (ctx.messages.length - limit) ∧
      ctx'.messages.length = min limit ctx.messages.length ∧
      ctx'.messages <:+ ctx.messages ∧
      ctx'.conversation_id = ctx.conversation_id ∧
      ctx'.state = ctx.state ∧
      ctx'.current_agent_type = ctx.current_agent_type ∧
      ctx'.metadata = ctx.metadata ∧
      ctx'.created_at = ctx.created_at ∧
      ctx'.last_updated = ctx.last_updated ∧
      get_conversation
          (ConversationManager.get_conversation_history repo cid limit).2
          cid
        = some ctx' ∧
      ctx'.messages.length ≤ limit := by
  have hslice : ctx.get_recent_messages limit
      = ctx.messages.drop (ctx.messages.length - limit) := by
    rw [ConversationContext.get_recent_messages, pySliceLast,
      if_neg (by omega)]
  have hget' : lookupKey repo cid.value = some ctx := hget
  refine ⟨{ ctx with messages := ctx.get_recent_messages limit },
    ?_, hslice, ?_, ?_, rfl, rfl, rfl, rfl, rfl, rfl, ?_, ?_⟩
  · simp [ConversationManager.get_conversation_history, hget, hget']
  · rw [hslice, List.length_drop]
    omega
  · rw [hslice]
    exact List.drop_suffix _ _
  · simp [ConversationManager.get_conversation_history, hget, hget',
      get_conversation, lookupKey_setKey_self]
  · rw [hslice, List.length_drop]
    omega

/-- Witness for C7: three stored messages, limit 2. -/
theorem c7_get_conversation_history_truncates_in_place_witness :
    get_conversation [("c", c7Ctx)] ⟨"c"⟩ = some c7Ctx ∧ 1 ≤ 2 ∧
    ∃ ctx',
      ConversationManager.get_conversation_history [("c", c7Ctx)] ⟨"c"⟩ 2
        = (some ctx', setKey [("c", c7Ctx)] (ConversationId.mk "c").value
            ctx') ∧
      ctx'.messages
        = c7Ctx.messages.drop (c7Ctx.messages.length - 2) ∧
      ctx'.messages.length = min 2 c7Ctx.messages.length ∧
      ctx'.messages <:+ c7Ctx.messages ∧
      ctx'.conversation_id = c7Ctx.conversation_id ∧
      ctx'.state = c7Ctx.state ∧
      ctx'.current_agent_type = c7Ctx.current_agent_type ∧
      ctx'.metadata = c7Ctx.metadata ∧
      ctx'.created_at = c7Ctx.created_at ∧
      ctx'.last_updated = c7Ctx.last_updated ∧
      get_conversation
          (ConversationManager.get_conversation_history [("c", c7Ctx)]
            ⟨"c"⟩ 2).2 ⟨"c"⟩
        = some ctx' ∧
      ctx'.messages.length ≤ 2 :=
  ⟨rfl, by decide,
    c7_get_conversation_history_truncates_in_place [("c", c7Ctx)] ⟨"c"⟩ 2
      c7Ctx rfl (by decide)⟩

/-! ## Claim C8 -/
/-- C8: without a real API key (empty or the placeholder), `search`
performs no network call and returns exactly the 3 deterministic mock
results built from the query text, with the claimed titles and with URLs
embedding the URL-quoted lower-cased query (`max_results` defaults to 5;
any value ≥ 3 keeps all three). -/
theorem c8_search_mock_results (api_key query : String)
    (max_results : Nat)
    (hkey : api_key = "" ∨ api_key = "your-web-search-api-key")
    (hmax : 3 ≤ max_results) :
    WebSearchClient.search api_key query max_results
      = .mock_results
        [{ title := "Información sobre " ++ query ++ " - Guía Completa",
           url := "https://example.com/guia-" ++ quotePlus (pyLower query),
           snippet := "Encuentra toda la información que necesitas sobre "
             ++ query ++ ". Guía completa y actualizada.",
           source := "mock_search" },
         { title := "Tutorial: " ++ query ++ " paso a paso",
           url := "https://tutoriales.com/" ++ quotePlus (pyLower query),
           snippet := "Aprende todo sobre " ++ query
             ++ " con nuestro tutorial paso a paso y ejemplos prácticos.",
           source := "mock_search" },
         { title := "FAQ: Preguntas frecuentes sobre " ++ query,
           url := "https://faq.com/" ++ quotePlus (pyLower query),
           snippet := "Las preguntas más frecuentes sobre " ++ query
             ++ " con respuestas detalladas de expertos.",
           source := "mock_search" }] ∧
    (WebSearchClient.get_mock_search_results query max_results).length
      = 3 := by
  have htake :
      WebSearchClient.get_mock_search_results query max_results
        = [{ title := "Información sobre " ++ query ++ " - Guía Completa",
             url := "https://example.com/guia-"
               ++ quotePlus (pyLower query),
             snippet :=
               "Encuentra toda la información que necesitas sobre "
               ++ query ++ ". Guía completa y actualizada.",
             source := "mock_search" },
           { title := "Tutorial: " ++ query ++ " paso a paso",
             url := "https://tutoriales.com/" ++ quotePlus (pyLower query),
             snippet := "Aprende todo sobre " ++ query
               ++ " con nuestro tutorial paso a paso y ejemplos prácticos.",
             source := "mock_search" },
           { title := "FAQ: Preguntas frecuentes sobre " ++ query,
             url := "https://faq.com/" ++ quotePlus (pyLower query),
             snippet := "Las preguntas más frecuentes sobre " ++ query
               ++ " con respuestas detalladas de expertos.",
             source := "mock_search" }] := by
    rw [WebSearchClient.get_mock_search_results]
    exact List.take_of_length_le (by simpa using hmax)
  refine ⟨?_, by simp [htake]⟩
  rcases hkey with h | h <;>
    simp [WebSearchClient.search, h, htake]

/-- Witness for C8 at a concrete query with the default
`max_results = 5` and no API key. -/
theorem c8_search_mock_results_witness :
    (("" : String) = "" ∨ ("" : String) = "your-web-search-api-key") ∧
    3 ≤ 5 ∧
    WebSearchClient.search "" "Riego por Goteo" 5
      = .mock_results
        [{ title := "Información sobre Riego por Goteo - Guía Completa",
           url := "https://example.com/guia-"
             ++ quotePlus (pyLower "Riego por Goteo"),
           snippet := "Encuentra toda la información que necesitas sobre "
             ++ "Riego por Goteo" ++ ". Guía completa y actualizada.",
           source := "mock_search" },
         { title := "Tutorial: Riego por Goteo paso a paso",
           url := "https://tutoriales.com/"
             ++ quotePlus (pyLower "Riego por Goteo"),
           snippet := "Aprende todo sobre " ++ "Riego por Goteo"
             ++ " con nuestro tutorial paso a paso y ejemplos prácticos.",
           source := "mock_search" },
         { title := "FAQ: Preguntas frecuentes sobre Riego por Goteo",
           url := "https://faq.com/" ++ quotePlus (pyLower "Riego por Goteo"),
           snippet := "Las preguntas más frecuentes sobre "
             ++ "Riego por Goteo" ++ " con respuestas detalladas de expertos.",
           source := "mock_search" }] ∧
    quotePlus (pyLower "Riego por Goteo") = "riego+por+goteo" :=
  ⟨Or.inl rfl, by decide,
    by
      have h := (c8_search_mock_results "" "Riego por Goteo" 5
        (Or.inl rfl) (by decide)).1
      simpa using h,
    by decide⟩

theorem capAppend_length {α : Type} (cap : Nat) (l : List α) (x : α) :
    (capAppend cap l x).length = min (l.length + 1) cap := by
  rw [capAppend]
  split <;> rename_i h <;>
    simp only [List.length_drop, List.length_append,
      List.length_singleton] at h ⊢ <;>
    omega

theorem device_foldl_sensor_data (readings : List (SensorData × Nat)) :
    ∀ d : Device,
      (readings.foldl (fun d p => d.add_sensor_data p.1 p.2) d).sensor_data
        = (readings.map Prod.fst).foldl (capAppend 100) d.sensor_data := by
  induction readings with
  | nil => intro d; rfl
  | cons r rs ih =>
    intro d
    simp only [List.foldl_cons, List.map_cons]
    exact ih (d.add_sensor_data r.1 r.2)

theorem history_foldl (entries :
    List (String × List (List (String × String)) × Nat)) :
    ∀ c : Entities.ConversationContext,
      (entries.foldl (fun c p => c.add_to_history p.1 p.2.1 p.2.2)
          c).conversation_history
        = (entries.map (fun p =>
            ({ timestamp := p.2.2, message := p.1, entities := p.2.1 }
              : Entities.HistoryEntry))).foldl
            (capAppend 20) c.conversation_history := by
  induction entries with
  | nil => intro c; rfl
  | cons e es ih =>
    intro c
    simp only [List.foldl_cons, List.map_cons]
    exact ih (c.add_to_history e.1 e.2.1 e.2.2)

theorem devref_foldl_le (names : List String) :
    ∀ c : Entities.ConversationContext,
      c.last_mentioned_devices.length ≤ 5 →
      (names.foldl Entities.ConversationContext.add_device_reference
          c).last_mentioned_devices.length ≤ 5 := by
  induction names with
  | nil => intro c hc; exact hc
  | cons n ns ih =>
    intro c hc
    simp only [List.foldl_cons]
    refine ih _ ?_
    rw [Entities.ConversationContext.add_device_reference]
    split
    · exact hc
    · simp only [capAppend_length]
      omega

/-! ## Claim C9 -/
/-- C9: the capped-list eviction invariant.  From a fresh device, any
sequence of `add_sensor_data` calls leaves exactly the most recently
added `min total 100` readings in insertion order (the oldest evicted
first — in particular a 101st reading evicts only the first); from a
fresh alternate context, `add_device_reference` keeps at most 5 device
names, and `add_to_history` keeps exactly the most recent
`min total 20` entries. -/
theorem c9_capped_list_eviction (mac name ip loc sid : String)
    (c0 u0 : Nat) (readings : List (SensorData × Nat))
    (names : List String)
    (entries : List (String × List (List (String × String)) × Nat)) :
    (readings.foldl (fun d p => d.add_sensor_data p.1 p.2)
        (mkFreshDevice mac name ip loc c0 u0)).sensor_data
      = (readings.map Prod.fst).drop (readings.length - 100) ∧
    (readings.foldl (fun d p => d.add_sensor_data p.1 p.2)
        (mkFreshDevice mac name ip loc c0 u0)).sensor_data.length
      = min readings.length 100 ∧
    (names.foldl Entities.ConversationContext.add_device_reference
        (Entities.mkFreshContext sid c0 u0)).last_mentioned_devices.length
      ≤ 5 ∧
    (entries.foldl (fun c p => c.add_to_history p.1 p.2.1 p.2.2)
        (Entities.mkFreshContext sid c0 u0)).conversation_history
      = (entries.map (fun p =>
          ({ timestamp := p.2.2, message := p.1, entities := p.2.1 }
            : Entities.HistoryEntry))).drop (entries.length - 20) ∧
    (entries.foldl (fun c p => c.add_to_history p.1 p.2.1 p.2.2)
        (Entities.mkFreshContext sid c0 u0)).conversation_history.length
      = min entries.length 20 := by
  have hsd : (readings.foldl (fun d p => d.add_sensor_data p.1 p.2)
      (mkFreshDevice mac name ip loc c0 u0)).sensor_data
      = (readings.map Prod.fst).drop (readings.length - 100) := by
    rw [device_foldl_sensor_data]
    show (readings.map Prod.fst).foldl (capAppend 100) []
      = (readings.map Prod.fst).drop (readings.length - 100)
    rw [foldl_capAppend_nil]
    simp
  have hhist : (entries.foldl (fun c p => c.add_to_history p.1 p.2.1 p.2.2)
      (Entities.mkFreshContext sid c0 u0)).conversation_history
      = (entries.map (fun p =>
          ({ timestamp := p.2.2, message := p.1, entities := p.2.1 }
            : Entities.HistoryEntry))).drop (entries.length - 20) := by
    rw [history_foldl]
    show (entries.map _).foldl (capAppend 20) []
      = _
    rw [foldl_capAppend_nil]
    simp
  refine ⟨hsd, ?_, devref_foldl_le names _ (by simp [Entities.mkFreshContext]),
    hhist, ?_⟩
  · rw [hsd, List.length_drop, List.length_map]
    omega
  · rw [hhist, List.length_drop, List.length_map]
    omega

/-! ## Claim C10 -/
/-- C10: with a non-empty message list, `get_recent_messages 0` returns
the entire list (`messages[-0:]` is `messages[0:]`), both for the wired
value-object `ConversationContext` and for the alternate `Conversation`
entity. -/
theorem c10_get_recent_messages_zero (ctx : ConversationContext)
    (conv : Entities.Conversation)
    (h1 : ctx.messages ≠ []) (h2 : conv.messages ≠ []) :
    ctx.get_recent_messages 0 = ctx.messages ∧
    conv.get_recent_messages 0 = conv.messages := by
  constructor
  · rw [ConversationContext.get_recent_messages, pySliceLast, if_pos rfl]
  · rw [Entities.Conversation.get_recent_messages,
      if_pos (List.length_pos.mpr h2), pySliceLast, if_pos rfl]

/-- Witness for C10 at the concrete contexts. -/
theorem c10_get_recent_messages_zero_witness :
    c10Ctx.messages ≠ [] ∧ c10Conv.messages ≠ [] ∧
    (c10Ctx.get_recent_messages 0 = c10Ctx.messages ∧
      c10Conv.get_recent_messages 0 = c10Conv.messages) :=
  ⟨by decide, by decide,
    c10_get_recent_messages_zero c10Ctx c10Conv (by decide) (by decide)⟩

end SIS

